import Mathlib

/-!
Verification development for the music analytics platform core:
the event schema validator (src/models/music_events.py), the feature
deriver (EnrichEventMetadata in src/pipeline/music_pipeline.py), the
window aggregator (AggregateEventMetrics in the same file) and the
platform grouping of src/pipeline/dataflow_pipeline.py.

Numeric fields that are Python floats are embedded as rationals, and
Python ints as Lean Int.  Option models both JSON-absent fields and
conditionally present dictionary keys.
-/

/-- Types of music events (enum EventType in music_events.py). -/
inductive EventType where
  | play | skip | like | share | playlist_add | download | search
deriving DecidableEq, Repr

/-- String value of an EventType member, as in the Python str enum. -/
def EventType.value : EventType → String
  | .play => "play"
  | .skip => "skip"
  | .like => "like"
  | .share => "share"
  | .playlist_add => "playlist_add"
  | .download => "download"
  | .search => "search"

/-- Parse an event type token; none models a pydantic enum failure. -/
def EventType.ofString : String → Option EventType
  | "play" => some .play
  | "skip" => some .skip
  | "like" => some .like
  | "share" => some .share
  | "playlist_add" => some .playlist_add
  | "download" => some .download
  | "search" => some .search
  | _ => none

/-- Music streaming platforms (enum Platform in music_events.py). -/
inductive Platform where
  | spotify | apple_music | youtube_music | amazon_music | tidal | soundcloud | pandora
deriving DecidableEq, Repr

/-- String value of a Platform member. -/
def Platform.value : Platform → String
  | .spotify => "spotify"
  | .apple_music => "apple_music"
  | .youtube_music => "youtube_music"
  | .amazon_music => "amazon_music"
  | .tidal => "tidal"
  | .soundcloud => "soundcloud"
  | .pandora => "pandora"

/-- Parse a platform token; none models a pydantic enum failure. -/
def Platform.ofString : String → Option Platform
  | "spotify" => some .spotify
  | "apple_music" => some .apple_music
  | "youtube_music" => some .youtube_music
  | "amazon_music" => some .amazon_music
  | "tidal" => some .tidal
  | "soundcloud" => some .soundcloud
  | "pandora" => some .pandora
  | _ => none

/-- Music genres (enum Genre in music_events.py). -/
inductive Genre where
  | pop | rock | hip_hop | electronic | jazz | classical | country
  | r_and_b | indie | alternative | folk | reggae | blues | metal | punk | other
deriving DecidableEq, Repr

/-- Parse a genre token; none models a pydantic enum failure. -/
def Genre.ofString : String → Option Genre
  | "pop" => some .pop
  | "rock" => some .rock
  | "hip_hop" => some .hip_hop
  | "electronic" => some .electronic
  | "jazz" => some .jazz
  | "classical" => some .classical
  | "country" => some .country
  | "r_and_b" => some .r_and_b
  | "indie" => some .indie
  | "alternative" => some .alternative
  | "folk" => some .folk
  | "reggae" => some .reggae
  | "blues" => some .blues
  | "metal" => some .metal
  | "punk" => some .punk
  | _ => none

/-- Abstraction of a Python datetime by the attributes the pipeline code
reads: hour, weekday() with Monday = 0, month and year, plus the calendar
fields carried along.  Date arithmetic itself is external library code. -/
structure DateTime where
  year : Nat
  month : Nat
  day : Nat
  hour : Nat
  minute : Nat
  second : Nat
  weekday : Nat
deriving DecidableEq, Repr

/-- Artist information model (class Artist). -/
structure Artist where
  id : String
  name : String
  genres : List Genre
  followers : Option Int
  verified : Bool
  country : Option String
deriving DecidableEq, Repr

/-- Album information model (class Album). -/
structure Album where
  id : String
  name : String
  artist_id : String
  release_date : Option DateTime
  track_count : Option Int
  genres : List Genre
deriving DecidableEq, Repr

/-- Track information model (class Track). -/
structure Track where
  id : String
  name : String
  artist_id : String
  album_id : Option String
  duration_ms : Option Int
  explicit : Bool
  popularity : Option Int
  energy : Option ℚ
  valence : Option ℚ
  tempo : Option ℚ
  genres : List Genre
deriving DecidableEq, Repr

/-- User interaction context (class UserInteraction). -/
structure UserInteraction where
  user_id : String
  session_id : String
  device_type : Option String
  location : Option String
  subscription_type : Option String
  user_age_group : Option String
deriving DecidableEq, Repr

/-- Play event specific data (class PlayEvent). -/
structure PlayEvent where
  played_duration_ms : Int
  skip_reason : Option String
  playlist_id : Option String
  shuffle_mode : Bool
  repeat_mode : String
deriving DecidableEq, Repr

/-- Streaming platform specific event data (class StreamingEvent). -/
structure StreamingEvent where
  platform : Platform
  stream_quality : Option String
  bandwidth_kbps : Option Int
  buffer_events : Option Int
deriving DecidableEq, Repr

/-- Main music event model (class MusicEvent). -/
structure MusicEvent where
  event_id : String
  event_type : EventType
  timestamp : DateTime
  track : Track
  artist : Artist
  album : Option Album
  user_interaction : UserInteraction
  play_event : Option PlayEvent
  streaming_event : StreamingEvent
  raw_data : Option (List (String × String))
  processing_timestamp : DateTime
deriving DecidableEq, Repr

/-- Python runtime exception raised inside the enrichment stage. -/
structure PyError where
  msg : String
deriving DecidableEq, Repr

/-- The AttributeError raised by reading .value off a plain string. -/
def pyAttrErr : PyError := ⟨"AttributeError: str object has no attribute value"⟩

/-- The attribute read event.event_type.value in music_pipeline.py.
MusicEvent sets use_enum_values in its pydantic v1 Config, so the
stored event_type attribute is the plain enum value string, not the
member; a str has no value attribute, so this read raises
AttributeError on every validated event.  The hasattr guard around the
same read in music_pipeline_simple.py confirms this behaviour of the
shared model. -/
def event_type_value (_event : MusicEvent) : Except PyError String :=
  .error pyAttrErr

/-- Engagement score of EnrichEventMetadata._calculate_engagement_score
in music_pipeline.py: base 0.5, plus the raw (unclamped) play ratio
times 0.3 when a play event and a truthy (present, nonzero) duration
exist, then the interactive bonus and skip penalty reads of
event.event_type.value.  Those reads raise AttributeError (the stored
event_type is a plain string), so the function never returns a score. -/
def calculate_engagement_score (event : MusicEvent) : Except PyError ℚ := do
  let score : ℚ := 1/2
  let score :=
    match event.play_event, event.track.duration_ms with
    | some p, some d =>
        if d ≠ 0 then score + ((p.played_duration_ms : ℚ) / (d : ℚ)) * (3/10) else score
    | _, _ => score
  let kind ← event_type_value event
  let score := if kind ∈ ["like", "share", "playlist_add"] then score + 2/5 else score
  let score :=
    match event.play_event with
    | some p => if p.repeat_mode ≠ "off" then score + 1/10 else score
    | none => score
  let kind2 ← event_type_value event
  let score := if kind2 = "skip" then score - 1/5 else score
  pure (max 0 (min 1 score))

/-- Engagement score of music_pipeline_simple.py, whose event kind reads
are hasattr guarded: the stored event_type is a plain value string, the
guard fails and str(event.event_type) is that string itself, abstracted
here as EventType.value of the member the string denotes.  Otherwise the
computation is identical to music_pipeline.py: base 0.5, raw (unclamped)
play ratio times 0.3 under the truthiness guards, plus 0.4 for
interactive kinds, plus 0.1 for repeat listening, minus 0.2 for skips,
clamped into the unit interval. -/
def calculate_engagement_score_simple (event : MusicEvent) : ℚ :=
  let score : ℚ := 1/2
  let score :=
    match event.play_event, event.track.duration_ms with
    | some p, some d =>
        if d ≠ 0 then score + ((p.played_duration_ms : ℚ) / (d : ℚ)) * (3/10) else score
    | _, _ => score
  let event_type_str := event.event_type.value
  let score :=
    if event_type_str ∈ ["like", "share", "playlist_add"] then score + 2/5 else score
  let score :=
    match event.play_event with
    | some p => if p.repeat_mode ≠ "off" then score + 1/10 else score
    | none => score
  let score := if event_type_str = "skip" then score - 1/5 else score
  max 0 (min 1 score)

/-- Engagement score as the spec words it (section 4.2 step 4 computed
with the clamped completion ratio of step 3): the completion term is
min(played over duration, 1) times 0.3 whenever both the play detail and
the track duration are present.  This definition follows the spec text
and exists to be compared with the engagement computations above. -/
def specEngagementScore (event : MusicEvent) : ℚ :=
  let score : ℚ := 1/2
  let score :=
    match event.play_event, event.track.duration_ms with
    | some p, some d => score + min ((p.played_duration_ms : ℚ) / (d : ℚ)) 1 * (3/10)
    | _, _ => score
  let score :=
    if event.event_type.value ∈ ["like", "share", "playlist_add"] then score + 2/5 else score
  let score :=
    match event.play_event with
    | some p => if p.repeat_mode ≠ "off" then score + 1/10 else score
    | none => score
  let score := if event.event_type.value = "skip" then score - 1/5 else score
  max 0 (min 1 score)

/-- Fields computed by EnrichEventMetadata for one event; Option models
dictionary keys that are only added under the guards in the source. -/
structure DerivedFields where
  hour_of_day : Nat
  day_of_week : Nat
  is_weekend : Bool
  month : Nat
  year : Nat
  track_duration_seconds : Option ℚ
  is_long_track : Option Bool
  is_short_track : Option Bool
  play_completion_ratio : Option ℚ
  is_full_play : Option Bool
  is_skip : Option Bool
  engagement_score : ℚ
  platform_category : String
deriving DecidableEq, Repr

/-- Platform classification of EnrichEventMetadata. -/
def premium_platforms : List String := ["spotify", "apple_music", "tidal"]

/-- Ad supported platform list of EnrichEventMetadata. -/
def ad_supported : List String := ["youtube_music", "soundcloud", "pandora"]

/-- Platform category of EnrichEventMetadata in music_pipeline.py. -/
def categorize_platform (platform : String) : String :=
  if platform ∈ premium_platforms then "premium"
  else if platform ∈ ad_supported then "ad_supported"
  else "other"

/-- Track duration block of _calculate_derived_fields (the dictionary
update guarded by the truthiness of duration_ms): duration in seconds,
long track flag, short track flag; present exactly when the duration is
present and nonzero. -/
def duration_fields (event : MusicEvent) : Option (ℚ × Bool × Bool) :=
  match event.track.duration_ms with
  | some d =>
      if d ≠ 0 then
        let duration_seconds : ℚ := (d : ℚ) / 1000
        some (duration_seconds, decide (duration_seconds > 300), decide (duration_seconds < 120))
      else none
  | none => none

/-- Play completion block of _calculate_derived_fields (the dictionary
update guarded by the play event and the truthiness of duration_ms):
clamped completion ratio, full play flag, skip flag. -/
def completion_fields (event : MusicEvent) : Option (ℚ × Bool × Bool) :=
  match event.play_event, event.track.duration_ms with
  | some p, some d =>
      if d ≠ 0 then
        let play_ratio : ℚ := (p.played_duration_ms : ℚ) / (d : ℚ)
        some (min play_ratio 1, decide (play_ratio ≥ 4/5), decide (play_ratio < 3/10))
      else none
  | _, _ => none

/-- Derived analytics fields of EnrichEventMetadata in music_pipeline.py.
The time, duration and completion updates execute first, then the
engagement score call raises AttributeError on every event (plain
string event_type has no value attribute), so the function never
returns the assembled field dictionary. -/
def calculate_derived_fields (event : MusicEvent) : Except PyError DerivedFields := do
  let ts := event.timestamp
  let durationTriple := duration_fields event
  let completionTriple := completion_fields event
  let engagement_score ← calculate_engagement_score event
  let platform := event.streaming_event.platform.value
  pure
    { hour_of_day := ts.hour
      day_of_week := ts.weekday
      is_weekend := decide (ts.weekday ≥ 5)
      month := ts.month
      year := ts.year
      track_duration_seconds := durationTriple.map (fun t => t.1)
      is_long_track := durationTriple.map (fun t => t.2.1)
      is_short_track := durationTriple.map (fun t => t.2.2)
      play_completion_ratio := completionTriple.map (fun t => t.1)
      is_full_play := completionTriple.map (fun t => t.2.1)
      is_skip := completionTriple.map (fun t => t.2.2)
      engagement_score := engagement_score
      platform_category := categorize_platform platform }

/-- Tagged validation failure: the offending field path (pydantic loc)
and the reason message. -/
structure ValidationErr where
  loc : List String
  msg : String
deriving DecidableEq, Repr

/-- Raw artist payload before validation; none models an absent key. -/
structure RawArtist where
  id : Option String
  name : Option String
  genres : Option (List String)
  followers : Option Int
  verified : Option Bool
  country : Option String
deriving DecidableEq, Repr

/-- Raw album payload before validation. -/
structure RawAlbum where
  id : Option String
  name : Option String
  artist_id : Option String
  release_date : Option DateTime
  track_count : Option Int
  genres : Option (List String)
deriving DecidableEq, Repr

/-- Raw track payload before validation. -/
structure RawTrack where
  id : Option String
  name : Option String
  artist_id : Option String
  album_id : Option String
  duration_ms : Option Int
  explicit : Option Bool
  popularity : Option Int
  energy : Option ℚ
  valence : Option ℚ
  tempo : Option ℚ
  genres : Option (List String)
deriving DecidableEq, Repr

/-- Raw user interaction payload before validation. -/
structure RawUserInteraction where
  user_id : Option String
  session_id : Option String
  device_type : Option String
  location : Option String
  subscription_type : Option String
  user_age_group : Option String
deriving DecidableEq, Repr

/-- Raw play event payload before validation. -/
structure RawPlayEvent where
  played_duration_ms : Option Int
  skip_reason : Option String
  playlist_id : Option String
  shuffle_mode : Option Bool
  repeat_mode : Option String
deriving DecidableEq, Repr

/-- Raw streaming event payload before validation. -/
structure RawStreamingEvent where
  platform : Option String
  stream_quality : Option String
  bandwidth_kbps : Option Int
  buffer_events : Option Int
deriving DecidableEq, Repr

/-- Raw music event payload, the decoded JSON object handed to the
MusicEvent constructor. -/
structure RawMusicEvent where
  event_id : Option String
  event_type : Option String
  timestamp : Option DateTime
  track : Option RawTrack
  artist : Option RawArtist
  album : Option RawAlbum
  user_interaction : Option RawUserInteraction
  play_event : Option RawPlayEvent
  streaming_event : Option RawStreamingEvent
  raw_data : Option (List (String × String))
  processing_timestamp : Option DateTime
deriving DecidableEq, Repr

/-- Environment supplying the nondeterministic defaults pydantic pulls
from the outside world: a fresh uuid4 string for event_id and the
current utc time for the two timestamp defaults. -/
structure ValidationEnv where
  fresh_uuid : String
  now : DateTime
deriving DecidableEq, Repr

/-- Require a field to be present, with the pydantic missing message. -/
def requireField (field : String) : Option α → Except ValidationErr α
  | some a => .ok a
  | none => .error ⟨[field], "field required"⟩

/-- Check an optional integer field against a lower bound (pydantic ge). -/
def checkOptGeInt (field : String) (bound : Int) :
    Option Int → Except ValidationErr (Option Int)
  | none => .ok none
  | some v =>
      if v < bound then
        .error ⟨[field], "ensure this value is greater than or equal to " ++ toString bound⟩
      else .ok (some v)

/-- Check a required integer field against a lower bound (pydantic ge). -/
def checkGeInt (field : String) (bound : Int) (v : Int) : Except ValidationErr Int :=
  if v < bound then
    .error ⟨[field], "ensure this value is greater than or equal to " ++ toString bound⟩
  else .ok v

/-- Check an optional integer field against an upper bound (pydantic le). -/
def checkOptLeInt (field : String) (bound : Int) :
    Option Int → Except ValidationErr (Option Int)
  | none => .ok none
  | some v =>
      if v > bound then
        .error ⟨[field], "ensure this value is less than or equal to " ++ toString bound⟩
      else .ok (some v)

/-- Check an optional rational field against lower and upper bounds. -/
def checkOptRangeQ (field : String) (lo hi : ℚ) :
    Option ℚ → Except ValidationErr (Option ℚ)
  | none => .ok none
  | some v =>
      if v < lo then
        .error ⟨[field], "ensure this value is greater than or equal to the lower bound"⟩
      else if v > hi then
        .error ⟨[field], "ensure this value is less than or equal to the upper bound"⟩
      else .ok (some v)

/-- Check an optional rational field against a lower bound. -/
def checkOptGeQ (field : String) (lo : ℚ) :
    Option ℚ → Except ValidationErr (Option ℚ)
  | none => .ok none
  | some v =>
      if v < lo then
        .error ⟨[field], "ensure this value is greater than or equal to the lower bound"⟩
      else .ok (some v)

/-- Check an optional string against a maximum length (pydantic max_length). -/
def checkOptMaxLen (field : String) (bound : Nat) :
    Option String → Except ValidationErr (Option String)
  | none => .ok none
  | some v =>
      if v.length > bound then
        .error ⟨[field], "ensure this value has at most " ++ toString bound ++ " characters"⟩
      else .ok (some v)

/-- Executable embedding of the Python str.strip() call: drop leading
and trailing whitespace characters. -/
def pyStrip (s : String) : String :=
  ⟨((s.data.dropWhile Char.isWhitespace).reverse.dropWhile Char.isWhitespace).reverse⟩

/-- Name field validation: the pydantic min_length and max_length
constraints followed by the custom validator that rejects names that are
empty after trimming and stores the trimmed name. -/
def parseName (field : String) (maxLen : Nat) (emptyMsg : String) (s : String) :
    Except ValidationErr String :=
  if s.length < 1 then
    .error ⟨[field], "ensure this value has at least 1 characters"⟩
  else if s.length > maxLen then
    .error ⟨[field], "ensure this value has at most " ++ toString maxLen ++ " characters"⟩
  else if pyStrip s = "" then .error ⟨[field], emptyMsg⟩
  else .ok (pyStrip s)

/-- Parse a list of genre tokens against the closed Genre enumeration,
defaulting to the empty list when the key is absent. -/
def parseGenres (field : String) (o : Option (List String)) :
    Except ValidationErr (List Genre) :=
  go 0 (o.getD [])
where
  go : Nat → List String → Except ValidationErr (List Genre)
  | _, [] => .ok []
  | i, t :: ts =>
      match Genre.ofString t with
      | some g => (go (i + 1) ts).map (fun gs => g :: gs)
      | none => .error ⟨[field, toString i], "value is not a valid enumeration member"⟩

/-- Prefix the location of an error with the name of an embedded model
field, as pydantic does for nested models. -/
def withLoc (field : String) : Except ValidationErr α → Except ValidationErr α
  | .ok a => .ok a
  | .error e => .error ⟨field :: e.loc, e.msg⟩

/-- Validation of an Artist payload: required fields, field constraints
and the name validator, in pydantic field order. -/
def parseArtist (raw : RawArtist) : Except ValidationErr Artist := do
  let id ← requireField "id" raw.id
  let nameRaw ← requireField "name" raw.name
  let name ← parseName "name" 200 "Artist name cannot be empty" nameRaw
  let genres ← parseGenres "genres" raw.genres
  let followers ← checkOptGeInt "followers" 0 raw.followers
  let verified := raw.verified.getD false
  let country ← checkOptMaxLen "country" 2 raw.country
  .ok ⟨id, name, genres, followers, verified, country⟩

/-- Validation of an Album payload. -/
def parseAlbum (raw : RawAlbum) : Except ValidationErr Album := do
  let id ← requireField "id" raw.id
  let nameRaw ← requireField "name" raw.name
  let name ← parseName "name" 300 "Album name cannot be empty" nameRaw
  let artist_id ← requireField "artist_id" raw.artist_id
  let track_count ← checkOptGeInt "track_count" 1 raw.track_count
  let genres ← parseGenres "genres" raw.genres
  .ok ⟨id, name, artist_id, raw.release_date, track_count, genres⟩

/-- Validation of a Track payload. -/
def parseTrack (raw : RawTrack) : Except ValidationErr Track := do
  let id ← requireField "id" raw.id
  let nameRaw ← requireField "name" raw.name
  let name ← parseName "name" 300 "Track name cannot be empty" nameRaw
  let artist_id ← requireField "artist_id" raw.artist_id
  let duration_ms ← checkOptGeInt "duration_ms" 0 raw.duration_ms
  let explicit := raw.explicit.getD false
  let popularity ← checkOptGeInt "popularity" 0 raw.popularity
  let popularity ← checkOptLeInt "popularity" 100 popularity
  let energy ← checkOptRangeQ "energy" 0 1 raw.energy
  let valence ← checkOptRangeQ "valence" 0 1 raw.valence
  let tempo ← checkOptGeQ "tempo" 0 raw.tempo
  let genres ← parseGenres "genres" raw.genres
  .ok ⟨id, name, artist_id, raw.album_id, duration_ms, explicit, popularity,
       energy, valence, tempo, genres⟩

/-- Validation of a UserInteraction payload. -/
def parseUserInteraction (raw : RawUserInteraction) :
    Except ValidationErr UserInteraction := do
  let user_id ← requireField "user_id" raw.user_id
  let session_id ← requireField "session_id" raw.session_id
  let location ← checkOptMaxLen "location" 2 raw.location
  .ok ⟨user_id, session_id, raw.device_type, location,
       raw.subscription_type, raw.user_age_group⟩

/-- Validation of a PlayEvent payload, including the repeat_mode
validator over the closed set of modes. -/
def parsePlayEvent (raw : RawPlayEvent) : Except ValidationErr PlayEvent := do
  let played ← requireField "played_duration_ms" raw.played_duration_ms
  let played ← checkGeInt "played_duration_ms" 0 played
  let shuffle_mode := raw.shuffle_mode.getD false
  let repeat_mode := raw.repeat_mode.getD "off"
  let repeat_mode ←
    if repeat_mode ∈ ["off", "track", "context"] then pure repeat_mode
    else .error ⟨["repeat_mode"], "Repeat mode must be one of [off, track, context]"⟩
  .ok ⟨played, raw.skip_reason, raw.playlist_id, shuffle_mode, repeat_mode⟩

/-- Validation of a StreamingEvent payload against the closed Platform
enumeration and the numeric bounds. -/
def parseStreamingEvent (raw : RawStreamingEvent) :
    Except ValidationErr StreamingEvent := do
  let platformTok ← requireField "platform" raw.platform
  let platform ←
    match Platform.ofString platformTok with
    | some p => pure p
    | none => .error ⟨["platform"], "value is not a valid enumeration member"⟩
  let bandwidth ← checkOptGeInt "bandwidth_kbps" 0 raw.bandwidth_kbps
  let buffers ← checkOptGeInt "buffer_events" 0 raw.buffer_events
  .ok ⟨platform, raw.stream_quality, bandwidth, buffers⟩

/-- Field level validation of a MusicEvent payload: defaults for
event_id and the two timestamps are drawn from the environment, nested
models are validated with their locations prefixed, in pydantic field
order.  The cross field root validator runs afterwards. -/
def parseMusicEventFields (env : ValidationEnv) (raw : RawMusicEvent) :
    Except ValidationErr MusicEvent := do
  let event_id := raw.event_id.getD env.fresh_uuid
  let eventTypeTok ← requireField "event_type" raw.event_type
  let event_type ←
    match EventType.ofString eventTypeTok with
    | some t => pure t
    | none => .error ⟨["event_type"], "value is not a valid enumeration member"⟩
  let timestamp := raw.timestamp.getD env.now
  let trackRaw ← requireField "track" raw.track
  let track ← withLoc "track" (parseTrack trackRaw)
  let artistRaw ← requireField "artist" raw.artist
  let artist ← withLoc "artist" (parseArtist artistRaw)
  let album ←
    match raw.album with
    | none => pure none
    | some a => (withLoc "album" (parseAlbum a)).map some
  let uiRaw ← requireField "user_interaction" raw.user_interaction
  let user_interaction ← withLoc "user_interaction" (parseUserInteraction uiRaw)
  let play_event ←
    match raw.play_event with
    | none => pure none
    | some p => (withLoc "play_event" (parsePlayEvent p)).map some
  let seRaw ← requireField "streaming_event" raw.streaming_event
  let streaming_event ← withLoc "streaming_event" (parseStreamingEvent seRaw)
  let processing_timestamp := raw.processing_timestamp.getD env.now
  .ok ⟨event_id, event_type, timestamp, track, artist, album, user_interaction,
       play_event, streaming_event, raw.raw_data, processing_timestamp⟩

/-- Root validator validate_event_consistency of MusicEvent: play events
must carry play_event data, and the track artist_id must match the
artist id. -/
def validate_event_consistency (values : MusicEvent) :
    Except ValidationErr MusicEvent :=
  if values.event_type = EventType.play ∧ values.play_event = none then
    .error ⟨["__root__"], "Play events must include play_event data"⟩
  else if values.track.artist_id ≠ values.artist.id then
    .error ⟨["__root__"], "Track artist_id must match artist id"⟩
  else .ok values

/-- Full validation of a raw music event, embedding the pydantic
MusicEvent constructor: field validation, then the root validator. -/
def parseMusicEvent (env : ValidationEnv) (raw : RawMusicEvent) :
    Except ValidationErr MusicEvent :=
  (parseMusicEventFields env raw).bind validate_event_consistency

/-- Observable outcome of ParseMusicEvent.process in music_pipeline.py:
the yielded events and the two beam metric counters. -/
structure ParseResult where
  output : List MusicEvent
  success : Nat
  failures : Nat
deriving DecidableEq, Repr

/-- ParseMusicEvent.process: a message that fails to decode, or whose
payload fails validation, is caught, counted and dropped; a valid
payload is yielded and counted as success.  The none input models a
message whose bytes do not decode to JSON. -/
def parse_music_event_process (env : ValidationEnv)
    (message : Option RawMusicEvent) : ParseResult :=
  match message with
  | none => ⟨[], 0, 1⟩
  | some raw =>
      match parseMusicEvent env raw with
      | .ok e => ⟨[e], 1, 0⟩
      | .error _ => ⟨[], 0, 1⟩

/-- Enriched event row as seen by AggregateEventMetrics.process: the
dictionary fields that the aggregation reads.  The engagement score is
optional because the code checks for key presence before reading it. -/
structure EnrichedRow where
  user_id : String
  track_id : String
  platform : String
  event_type : String
  engagement_score : Option ℚ
  timestamp : String
deriving DecidableEq, Repr

/-- Running minimum over an optional accumulator, the fold underlying
the Python min over a nonempty sequence. -/
def optMinStr (acc : Option String) (s : String) : Option String :=
  match acc with
  | none => some s
  | some m => some (min m s)

/-- Running maximum over an optional accumulator. -/
def optMaxStr (acc : Option String) (s : String) : Option String :=
  match acc with
  | none => some s
  | some m => some (max m s)

/-- Emitted window aggregate of AggregateEventMetrics.process.  The two
distributions are the dictionaries read as count maps. -/
structure WindowAggregate where
  window_start : String
  window_end : String
  total_events : Nat
  unique_users : Nat
  unique_tracks : Nat
  platform_distribution : String → Nat
  event_type_distribution : String → Nat
  average_engagement_score : ℚ
  aggregation_timestamp : String

/-- AggregateEventMetrics.process: counts, distinct users and tracks,
per platform and per event type distributions, mean engagement over the
rows that carry a score, window bounds as min and max of the row
timestamps, and the wall clock aggregation timestamp passed in as now.
An empty window yields nothing. -/
def aggregate_event_metrics (events : List EnrichedRow) (now : String) :
    Option WindowAggregate :=
  if events.isEmpty then none
  else
    let engagement_scores := events.filterMap (fun e => e.engagement_score)
    some
      { window_start := ((events.map (fun e => e.timestamp)).foldl optMinStr none).getD ""
        window_end := ((events.map (fun e => e.timestamp)).foldl optMaxStr none).getD ""
        total_events := events.length
        unique_users := (events.map (fun e => e.user_id)).dedup.length
        unique_tracks := (events.map (fun e => e.track_id)).dedup.length
        platform_distribution := fun p => (events.map (fun e => e.platform)).count p
        event_type_distribution := fun t => (events.map (fun e => e.event_type)).count t
        average_engagement_score :=
          if engagement_scores.isEmpty then 0
          else engagement_scores.sum / (engagement_scores.length : ℚ)
        aggregation_timestamp := now }

/-- Record shape consumed by the platform grouping of
dataflow_pipeline.py: the fields that platform_metrics reads. -/
structure ProcessedRecord where
  platform : String
  is_premium_platform : Bool
deriving DecidableEq, Repr

/-- Keys of a keyed stream in first occurrence order. -/
def firstKeys : List String → List String
  | [] => []
  | k :: rest => k :: (firstKeys rest).filter (fun x => x != k)

/-- Grouping of keyed values in key first occurrence order, the shape of
a GroupByKey result. -/
def groupByKey (l : List (String × α)) : List (String × List α) :=
  (firstKeys (l.map (fun p => p.1))).map
    (fun k => (k, (l.filter (fun p => p.1 == k)).map (fun p => p.2)))

/-- One emitted row of the platform metrics branch. -/
structure PlatformMetric where
  platform : String
  count : Nat
  premium_ratio : ℚ
  window_start : String
deriving DecidableEq, Repr

/-- The platform_metrics branch of dataflow_pipeline.py: key each record
by platform, group by key, and emit count, premium ratio and the window
start stamp per group. -/
def platform_metrics (records : List ProcessedRecord) (now : String) :
    List PlatformMetric :=
  (groupByKey (records.map (fun x => (x.platform, x)))).map
    (fun g =>
      { platform := g.1
        count := g.2.length
        premium_ratio :=
          ((g.2.filter (fun e => e.is_premium_platform)).length : ℚ) / (g.2.length : ℚ)
        window_start := now })

/-- Decidable equality for Except, used to settle concrete validation
outcomes by evaluation. -/
instance [DecidableEq ε] [DecidableEq α] : DecidableEq (Except ε α)
  | .ok a, .ok b =>
      match decEq a b with
      | .isTrue h => .isTrue (h ▸ rfl)
      | .isFalse h => .isFalse (fun hh => h (Except.ok.inj hh))
  | .ok _, .error _ => .isFalse (fun hh => Except.noConfusion hh)
  | .error _, .ok _ => .isFalse (fun hh => Except.noConfusion hh)
  | .error e, .error f =>
      match decEq e f with
      | .isTrue h => .isTrue (h ▸ rfl)
      | .isFalse h => .isFalse (fun hh => h (Except.error.inj hh))

/-- Sample timestamp, a Monday afternoon. -/
def t0 : DateTime := ⟨2024, 1, 15, 14, 30, 0, 0⟩

/-- Sample validation environment. -/
def env0 : ValidationEnv := ⟨"uuid-0001", t0⟩

/-- Sample raw artist payload. -/
def rawArtist0 : RawArtist :=
  ⟨some "artist-001", some "Test Artist", some ["pop"], some 1000, some true, some "US"⟩

/-- Sample raw track payload. -/
def rawTrack0 : RawTrack :=
  ⟨some "track-001", some "Test Song", some "artist-001", none, some 210000,
   some false, some 75, none, none, none, some ["pop"]⟩

/-- Sample raw user interaction payload. -/
def rawUI0 : RawUserInteraction :=
  ⟨some "user-001", some "session-001", none, some "US", none, none⟩

/-- Sample raw play event payload. -/
def rawPlay0 : RawPlayEvent := ⟨some 180000, none, none, some false, some "off"⟩

/-- Sample raw streaming event payload. -/
def rawStream0 : RawStreamingEvent := ⟨some "spotify", none, some 320, some 0⟩

/-- Sample fully specified raw event: every defaultable field supplied. -/
def rawEventFull : RawMusicEvent :=
  ⟨some "evt-001", some "play", some t0, some rawTrack0, some rawArtist0, none,
   some rawUI0, some rawPlay0, some rawStream0, none, some t0⟩

/-- Validated sample artist. -/
def artist0 : Artist := ⟨"artist-001", "Test Artist", [.pop], some 1000, true, some "US"⟩

/-- Validated sample track. -/
def track0 : Track :=
  ⟨"track-001", "Test Song", "artist-001", none, some 210000, false, some 75,
   none, none, none, [.pop]⟩

/-- Validated sample user interaction. -/
def ui0 : UserInteraction := ⟨"user-001", "session-001", none, some "US", none, none⟩

/-- Validated sample play event. -/
def play0 : PlayEvent := ⟨180000, none, none, false, "off"⟩

/-- Validated sample streaming event. -/
def stream0 : StreamingEvent := ⟨.spotify, none, some 320, some 0⟩

/-- Raw play event whose played duration exceeds the track duration. -/
def rawPlayOver : RawPlayEvent := ⟨some 2000, none, none, some false, some "off"⟩

/-- Raw track with a short duration, below the played duration above. -/
def rawTrackShort : RawTrack :=
  ⟨some "track-001", some "Test Song", some "artist-001", none, some 1000,
   some false, some 75, none, none, none, some ["pop"]⟩

/-- Raw event whose play detail reports more played milliseconds than the
track lasts. -/
def rawEventOverplay : RawMusicEvent :=
  { rawEventFull with track := some rawTrackShort, play_event := some rawPlayOver }

/-- Validated event for the overplay scenario. -/
def evOverplay : MusicEvent :=
  ⟨"evt-001", .play, t0,
   ⟨"track-001", "Test Song", "artist-001", none, some 1000, false, some 75,
    none, none, none, [.pop]⟩,
   artist0, none, ui0, some ⟨2000, none, none, false, "off"⟩, stream0, none, t0⟩

/-- C1. The claim states that the engagement score of the deriver equals
the spec step 4 formula with the CLAMPED completion ratio, with
contribution at most 0.3.  On the validated overplay event (played 2000
ms, duration 1000 ms) the deriver of music_pipeline.py produces no score
at all: the event kind read raises AttributeError.  The hasattr guarded
scorer of music_pipeline_simple.py does return a score there, but it
uses the raw ratio: it adds 0.6 and clamps to 1, while the spec formula
yields 0.8.  The claim is false on both counts. -/
theorem C1_engagement_formula_counterexample :
    parseMusicEvent env0 rawEventOverplay = .ok evOverplay ∧
    calculate_engagement_score evOverplay = .error pyAttrErr ∧
    calculate_engagement_score_simple evOverplay = 1 ∧
    specEngagementScore evOverplay = 4/5 ∧
    calculate_engagement_score_simple evOverplay ≠ specEngagementScore evOverplay := by
  have h1 : calculate_engagement_score_simple evOverplay = 1 := by
    simp [calculate_engagement_score_simple, evOverplay, EventType.value]
    norm_num [min_def, max_def]
  have h2 : specEngagementScore evOverplay = 4/5 := by
    simp [specEngagementScore, evOverplay, EventType.value]
    norm_num [min_def, max_def]
  exact ⟨by decide, rfl, h1, h2, by rw [h1, h2]; norm_num⟩

/-- C1 amended: the deriver of music_pipeline.py raises AttributeError
on every validated event before returning a score (the stored event
kind is a plain string under use_enum_values), and the hasattr guarded
scorer of music_pipeline_simple.py, which does return, uses the raw
unclamped ratio: it equals the spec step 4 formula exactly when the
played duration does not exceed the (validated nonnegative) track
duration. -/
theorem C1_engagement_formula_amended :
    (∀ e : MusicEvent, calculate_engagement_score e = .error pyAttrErr) ∧
    (∀ e : MusicEvent,
      (∀ p d, e.play_event = some p → e.track.duration_ms = some d →
        0 ≤ d ∧ p.played_duration_ms ≤ d) →
      calculate_engagement_score_simple e = specEngagementScore e) := by
  constructor
  · intro e
    rfl
  · intro e h
    unfold calculate_engagement_score_simple specEngagementScore
    cases hp : e.play_event with
    | none => rfl
    | some p =>
      cases hd : e.track.duration_ms with
      | none => rfl
      | some d =>
        obtain ⟨hd0, hpd⟩ := h p d hp hd
        dsimp only
        by_cases hz : d = 0
        · subst hz
          rw [if_neg (by norm_num : ¬((0:ℤ) ≠ 0))]
          have hbase : (1:ℚ)/2 + min ((p.played_duration_ms : ℚ) / ((0 : ℤ) : ℚ)) 1 * (3/10)
              = 1/2 := by norm_num [min_def]
          rw [hbase]
        · have hdpos : (0:ℚ) < (d:ℚ) := by
            exact_mod_cast lt_of_le_of_ne hd0 (Ne.symm hz)
          have hratio : ((p.played_duration_ms : ℚ) / (d : ℚ)) ≤ 1 :=
            (div_le_one hdpos).mpr (by exact_mod_cast hpd)
          rw [if_pos hz, min_eq_left hratio]

/-- Validated sample event with every component present and a played
duration below the track duration. -/
def evFull : MusicEvent :=
  ⟨"evt-001", .play, t0, track0, artist0, none, ui0, some play0, stream0, none, t0⟩

/-- C1 witness: on the concrete sample event the deriver raises, and the
guarded scorer agrees with the spec formula because the played duration
stays below the track duration. -/
theorem C1_engagement_formula_amended_witness :
    calculate_engagement_score evFull = .error pyAttrErr ∧
    calculate_engagement_score_simple evFull = specEngagementScore evFull := by
  refine ⟨C1_engagement_formula_amended.1 evFull, ?_⟩
  apply C1_engagement_formula_amended.2
  intro p d hp hd
  have hp2 : play0 = p := Option.some.inj hp
  have hd2 : (210000 : ℤ) = d := Option.some.inj hd
  subst hp2
  subst hd2
  decide

/-- C7. The claim matches the documented intent (the docstring says the
score is 0 to 1 and the code ends in max(0, min(1, score))), but the
code never returns a score: the event kind read raises AttributeError
on every validated event, evaluated here on the sample event.  The
hasattr guarded scorer of music_pipeline_simple.py, the repository fix
of exactly this crash, does keep every returned score in the closed
unit interval. -/
theorem C7_engagement_score_bounds :
    calculate_engagement_score evFull = .error pyAttrErr ∧
    (∀ e : MusicEvent, 0 ≤ calculate_engagement_score_simple e ∧
      calculate_engagement_score_simple e ≤ 1) := by
  refine ⟨rfl, ?_⟩
  intro e
  unfold calculate_engagement_score_simple
  exact ⟨le_max_left 0 _, max_le (by norm_num) (min_le_left 1 _)⟩

/-- Validated sample event with a present but zero track duration. -/
def evZeroDur : MusicEvent :=
  ⟨"evt-002", .like, t0, { track0 with duration_ms := some 0 }, artist0, none,
   ui0, none, stream0, none, t0⟩

/-- C9. The division guards are the claimed ones: a present but zero
track duration produces neither the duration nor the completion block
(Python truthiness treats 0 as absent), and a present completion ratio
certifies a nonzero denominator.  But the claimed totality of
derivation fails: _calculate_derived_fields raises AttributeError on
every validated event through the engagement score call, before the
assembled dictionary is returned. -/
theorem C9_no_division_by_zero :
    (∀ e : MusicEvent, calculate_derived_fields e = .error pyAttrErr) ∧
    (∀ e : MusicEvent, e.track.duration_ms = some 0 →
      duration_fields e = none ∧ completion_fields e = none) ∧
    (∀ (e : MusicEvent) (r : ℚ) (x y : Bool),
      completion_fields e = some (r, x, y) →
      ∃ p d, e.play_event = some p ∧ e.track.duration_ms = some d ∧ d ≠ 0 ∧
        r = min ((p.played_duration_ms : ℚ) / (d : ℚ)) 1) := by
  refine ⟨?_, ?_, ?_⟩
  · intro e
    rfl
  · intro e h
    cases hp : e.play_event <;> simp [duration_fields, completion_fields, h, hp]
  · intro e r x y h
    cases hp : e.play_event with
    | none => simp [completion_fields, hp] at h
    | some p =>
      cases hd : e.track.duration_ms with
      | none => simp [completion_fields, hp, hd] at h
      | some d =>
        by_cases hz : d = 0
        · simp [completion_fields, hp, hd, hz] at h
        · simp [completion_fields, hp, hd, hz] at h
          exact ⟨p, d, rfl, rfl, hz, h.1.symm⟩

/-- C9 witness: the zero duration event carries neither field block, and
the overplay event exhibits a completion ratio whose denominator is
certified nonzero; the derivation call on the zero duration event
raises. -/
theorem C9_no_division_by_zero_witness :
    calculate_derived_fields evZeroDur = .error pyAttrErr ∧
    (duration_fields evZeroDur = none ∧ completion_fields evZeroDur = none) ∧
    (∃ p d, evOverplay.play_event = some p ∧ evOverplay.track.duration_ms = some d ∧
      d ≠ 0 ∧ (1 : ℚ) = min ((p.played_duration_ms : ℚ) / (d : ℚ)) 1) := by
  refine ⟨C9_no_division_by_zero.1 evZeroDur,
    C9_no_division_by_zero.2.1 evZeroDur rfl,
    C9_no_division_by_zero.2.2 evOverplay 1 true false ?_⟩
  simp [completion_fields, evOverplay]
  norm_num [min_def]

/-- C8. Platform classification is the total three way case split over
the fixed premium and ad supported lists, spotify maps to premium and
soundcloud to ad supported, and the platform grouping of the dataflow
pipeline emits two separate rows with count one for a spotify record and
a soundcloud record in the same window. -/
theorem C8_platform_classification :
    (∀ p, p ∈ premium_platforms → categorize_platform p = "premium") ∧
    (∀ p, p ∉ premium_platforms → p ∈ ad_supported →
      categorize_platform p = "ad_supported") ∧
    (∀ p, p ∉ premium_platforms → p ∉ ad_supported →
      categorize_platform p = "other") ∧
    categorize_platform "spotify" = "premium" ∧
    categorize_platform "soundcloud" = "ad_supported" ∧
    (platform_metrics [⟨"spotify", true⟩, ⟨"soundcloud", false⟩] "w0").map
        (fun m => (m.platform, m.count)) = [("spotify", 1), ("soundcloud", 1)] := by
  refine ⟨?_, ?_, ?_, by decide, by decide, by decide⟩
  · intro p hp
    unfold categorize_platform
    rw [if_pos hp]
  · intro p hnp hp
    unfold categorize_platform
    rw [if_neg hnp, if_pos hp]
  · intro p h1 h2
    unfold categorize_platform
    rw [if_neg h1, if_neg h2]

/-- C8 witness: the three classification branches evaluated on concrete
platform tokens, tidal premium, pandora ad supported, amazon music
falling through to other. -/
theorem C8_platform_classification_witness :
    categorize_platform "tidal" = "premium" ∧
    categorize_platform "pandora" = "ad_supported" ∧
    categorize_platform "amazon_music" = "other" :=
  ⟨C8_platform_classification.1 "tidal" (by decide),
   C8_platform_classification.2.1 "pandora" (by decide) (by decide),
   C8_platform_classification.2.2.1 "amazon_music" (by decide) (by decide)⟩

/-- Right commutativity of the running minimum, the property that makes
the fold order irrelevant. -/
instance : RightCommutative optMinStr where
  right_comm b a₁ a₂ := by
    cases b with
    | none => simp [optMinStr, min_comm]
    | some m => simp [optMinStr, min_right_comm]

/-- Right commutativity of the running maximum. -/
instance : RightCommutative optMaxStr where
  right_comm b a₁ a₂ := by
    cases b with
    | none => simp [optMaxStr, max_comm]
    | some m =>
      simp only [optMaxStr, Option.some.injEq]
      rw [max_assoc, max_assoc, max_comm a₁ a₂]

/-- Permutations preserve emptiness. -/
theorem perm_isEmpty_eq {α : Type} {l₁ l₂ : List α} (p : l₁.Perm l₂) :
    l₁.isEmpty = l₂.isEmpty := by
  have := p.length_eq
  cases l₁ <;> cases l₂ <;> simp_all

/-- C4. Window aggregation is order independent: permuting the rows of a
window leaves every field of the emitted aggregate unchanged, because
every accumulator is commutative (counts, distinct sets, count maps, sum
and extrema). -/
theorem C4_aggregation_order_independent :
    ∀ (l₁ l₂ : List EnrichedRow) (now : String), l₁.Perm l₂ →
      aggregate_event_metrics l₁ now = aggregate_event_metrics l₂ now := by
  intro l₁ l₂ now hp
  unfold aggregate_event_metrics
  rw [perm_isEmpty_eq hp]
  by_cases he : l₂.isEmpty = true
  · simp [he]
  · simp only [if_neg he]
    refine congrArg some ?_
    have hsc := hp.filterMap (fun e => e.engagement_score)
    simp only [WindowAggregate.mk.injEq]
    refine ⟨?_, ?_, hp.length_eq, ?_, ?_, ?_, ?_, ?_, trivial⟩
    · have h1 : List.foldl optMinStr none (l₁.map (fun e => e.timestamp)) =
          List.foldl optMinStr none (l₂.map (fun e => e.timestamp)) :=
        (hp.map (fun e => e.timestamp)).foldl_eq none
      exact congrArg (fun o => o.getD "") h1
    · have h1 : List.foldl optMaxStr none (l₁.map (fun e => e.timestamp)) =
          List.foldl optMaxStr none (l₂.map (fun e => e.timestamp)) :=
        (hp.map (fun e => e.timestamp)).foldl_eq none
      exact congrArg (fun o => o.getD "") h1
    · exact ((hp.map (fun e => e.user_id)).dedup).length_eq
    · exact ((hp.map (fun e => e.track_id)).dedup).length_eq
    · funext q
      exact (hp.map (fun e => e.platform)).count_eq q
    · funext q
      exact (hp.map (fun e => e.event_type)).count_eq q
    · rw [perm_isEmpty_eq hsc, hsc.sum_eq, hsc.length_eq]

/-- Sample enriched row on spotify. -/
def rowA : EnrichedRow :=
  ⟨"user-001", "track-001", "spotify", "play", some (4/5), "2024-01-15T14:30:00"⟩

/-- Sample enriched row on soundcloud. -/
def rowB : EnrichedRow :=
  ⟨"user-002", "track-002", "soundcloud", "skip", some (3/10), "2024-01-15T14:30:30"⟩

/-- C4 witness: swapping two concrete rows leaves the aggregate equal. -/
theorem C4_aggregation_order_independent_witness :
    aggregate_event_metrics [rowA, rowB] "2024-01-15T14:31:00" =
    aggregate_event_metrics [rowB, rowA] "2024-01-15T14:31:00" :=
  C4_aggregation_order_independent [rowA, rowB] [rowB, rowA]
    "2024-01-15T14:31:00" (List.Perm.swap rowB rowA [])

/-- Aggregate with its aggregation timestamp blanked, isolating the
input determined fields. -/
def clear_aggregation_timestamp (a : WindowAggregate) : WindowAggregate :=
  { a with aggregation_timestamp := "" }

/-- C3. The claim demands byte identical output across two runs on the
same window, timestamp metadata included.  The code stamps each
aggregate with the wall clock at emission time, so two runs at distinct
instants differ in aggregation_timestamp: aggregating the same singleton
window at two different clock readings yields unequal aggregates. -/
theorem C3_aggregation_idempotence_counterexample :
    aggregate_event_metrics [rowA] "2024-01-15T14:31:00" ≠
    aggregate_event_metrics [rowA] "2024-01-15T14:31:05" := by
  intro h
  have h2 := congrArg (Option.map (fun a => a.aggregation_timestamp)) h
  simp [aggregate_event_metrics] at h2

/-- C3 amended: two runs of the window aggregation on the same input
set agree on every field except aggregation_timestamp, which equals the
wall clock reading of the run. -/
theorem C3_aggregation_idempotence_amended :
    ∀ (events : List EnrichedRow) (n₁ n₂ : String),
      ((aggregate_event_metrics events n₁).map clear_aggregation_timestamp =
        (aggregate_event_metrics events n₂).map clear_aggregation_timestamp) ∧
      (∀ a, aggregate_event_metrics events n₁ = some a →
        a.aggregation_timestamp = n₁) := by
  intro events n₁ n₂
  constructor
  · unfold aggregate_event_metrics
    by_cases he : events.isEmpty = true
    · simp [he]
    · simp only [if_neg he]
      rfl
  · intro a h
    unfold aggregate_event_metrics at h
    by_cases he : events.isEmpty = true
    · simp [he] at h
    · simp only [if_neg he, Option.some.injEq] at h
      rw [← h]

/-- C3 witness: the amended statement on a concrete singleton window and
two concrete clock readings. -/
theorem C3_aggregation_idempotence_amended_witness :
    ((aggregate_event_metrics [rowA] "2024-01-15T14:31:00").map clear_aggregation_timestamp =
      (aggregate_event_metrics [rowA] "2024-01-15T14:31:05").map clear_aggregation_timestamp) ∧
    (aggregate_event_metrics [rowA] "2024-01-15T14:31:00").map
        (fun a => a.aggregation_timestamp) = some "2024-01-15T14:31:00" := by
  refine ⟨(C3_aggregation_idempotence_amended [rowA] "2024-01-15T14:31:00" "2024-01-15T14:31:05").1, ?_⟩
  cases hag : aggregate_event_metrics [rowA] "2024-01-15T14:31:00" with
  | none => exact absurd hag (by simp [aggregate_event_metrics])
  | some a =>
    simp [(C3_aggregation_idempotence_amended [rowA] "2024-01-15T14:31:00"
      "2024-01-15T14:31:05").2 a hag]

/-- Raw sample event with the event identifier omitted. -/
def rawEventNoId : RawMusicEvent := { rawEventFull with event_id := none }

/-- Validation environment of a first run. -/
def envA : ValidationEnv := ⟨"uuid-aaaa", t0⟩

/-- Validation environment of a second run, with a different fresh
uuid, as uuid4 never repeats across calls. -/
def envB : ValidationEnv := ⟨"uuid-bbbb", t0⟩

/-- C2. The claim extends determinism to inputs that omit the event
identifier.  The constructor draws a fresh uuid4 default for a missing
event_id, so two runs over the same identifier free record yield
different events: validation is not deterministic on such inputs. -/
theorem C2_validation_determinism_counterexample :
    parseMusicEvent envA rawEventNoId ≠ parseMusicEvent envB rawEventNoId := by
  decide

/-- C2 amended: validation is deterministic on every raw record that
supplies the three defaultable fields (event_id, timestamp and
processing_timestamp); on those inputs the result does not depend on
the environment that feeds the uuid and clock defaults. -/
theorem C2_validation_determinism_amended :
    ∀ (env₁ env₂ : ValidationEnv) (raw : RawMusicEvent),
      raw.event_id.isSome → raw.timestamp.isSome → raw.processing_timestamp.isSome →
      parseMusicEvent env₁ raw = parseMusicEvent env₂ raw := by
  intro e1 e2 raw h1 h2 h3
  obtain ⟨i, hi⟩ := Option.isSome_iff_exists.mp h1
  obtain ⟨t, ht⟩ := Option.isSome_iff_exists.mp h2
  obtain ⟨pt, hpt⟩ := Option.isSome_iff_exists.mp h3
  unfold parseMusicEvent parseMusicEventFields
  rw [hi, ht, hpt]
  simp only [Option.getD_some]

/-- C2 witness: the amended determinism evaluated on the fully
specified sample record under two different environments. -/
theorem C2_validation_determinism_amended_witness :
    parseMusicEvent envA rawEventFull = parseMusicEvent envB rawEventFull :=
  C2_validation_determinism_amended envA envB rawEventFull rfl rfl rfl

/-- Raw sample event of kind play with the play detail removed. -/
def rawEventPlayNoDetail : RawMusicEvent := { rawEventFull with play_event := none }

/-- Raw sample event of kind skip with the play detail removed. -/
def rawEventSkipNoDetail : RawMusicEvent :=
  { rawEventFull with event_type := some "skip", play_event := none }

/-- Validated skip event without play detail. -/
def evSkipNoDetail : MusicEvent :=
  ⟨"evt-001", .skip, t0, track0, artist0, none, ui0, none, stream0, none, t0⟩

/-- Field validated play event without play detail, the values handed to
the root validator. -/
def evPlayNoDetail : MusicEvent :=
  ⟨"evt-001", .play, t0, track0, artist0, none, ui0, none, stream0, none, t0⟩

/-- C5. The claim states that a failing validation returns a tagged
failure value to the caller.  The validator does build a tagged failure
with field path and reason, but ParseMusicEvent.process swallows it: on
this failing input the process output is empty, only the error counter
moves, and no failure value reaches the downstream caller. -/
theorem C5_failure_reporting_counterexample :
    parseMusicEvent env0 rawEventPlayNoDetail =
      .error ⟨["__root__"], "Play events must include play_event data"⟩ ∧
    parse_music_event_process env0 (some rawEventPlayNoDetail) =
      ⟨[], 0, 1⟩ :=
  ⟨by decide, by decide⟩

/-- C5 amended: validation failures are typed ValidationErr values
carrying location and reason, no exception escapes the process step
(its embedding is a total function covering the error branch), and every
failing record is dropped from the output with the error counter
incremented rather than returned to the caller. -/
theorem C5_failure_reporting_amended :
    ∀ (env : ValidationEnv) (raw : RawMusicEvent) (err : ValidationErr),
      parseMusicEvent env raw = .error err →
      parse_music_event_process env (some raw) = ⟨[], 0, 1⟩ := by
  intro env raw err h
  unfold parse_music_event_process
  dsimp only
  rw [h]

/-- C5 witness: the amended drop behaviour on the concrete failing
record. -/
theorem C5_failure_reporting_amended_witness :
    parse_music_event_process env0 (some rawEventPlayNoDetail) = ⟨[], 0, 1⟩ :=
  C5_failure_reporting_amended env0 rawEventPlayNoDetail
    ⟨["__root__"], "Play events must include play_event data"⟩ (by decide)

/-- C6. For records whose fields validate and whose artist ids match,
a missing play detail is rejected exactly when the event kind is play:
kind play yields the root validator error with the play detail reason,
any other kind is accepted. -/
theorem C6_play_requires_play_detail :
    ∀ (env : ValidationEnv) (raw : RawMusicEvent) (pre : MusicEvent),
      parseMusicEventFields env raw = .ok pre →
      pre.play_event = none →
      pre.track.artist_id = pre.artist.id →
      (pre.event_type = .play →
        parseMusicEvent env raw =
          .error ⟨["__root__"], "Play events must include play_event data"⟩) ∧
      (pre.event_type ≠ .play → parseMusicEvent env raw = .ok pre) := by
  intro env raw pre h hnone hmatch
  unfold parseMusicEvent
  rw [h]
  constructor
  · intro hplay
    simp [Except.bind, validate_event_consistency, hplay, hnone]
  · intro hne
    simp [Except.bind, validate_event_consistency, hnone, hmatch, hne]

/-- C6 witness: the concrete play record without play detail is
rejected with the play detail reason and the concrete skip record
without play detail is accepted. -/
theorem C6_play_requires_play_detail_witness :
    parseMusicEvent env0 rawEventPlayNoDetail =
      .error ⟨["__root__"], "Play events must include play_event data"⟩ ∧
    parseMusicEvent env0 rawEventSkipNoDetail = .ok evSkipNoDetail :=
  ⟨(C6_play_requires_play_detail env0 rawEventPlayNoDetail evPlayNoDetail
      (by decide) rfl rfl).1 rfl,
   (C6_play_requires_play_detail env0 rawEventSkipNoDetail evSkipNoDetail
      (by decide) rfl rfl).2 (by decide)⟩

/-- Inversion of a successful Except bind into its two stages. -/
theorem bind_ok_inv {ε α β : Type} {m : Except ε α} {f : α → Except ε β} {b : β}
    (h : m >>= f = .ok b) : ∃ a, m = .ok a ∧ f a = .ok b := by
  cases m with
  | error e => simp [Bind.bind, Except.bind] at h
  | ok a => exact ⟨a, rfl, by simpa [Bind.bind, Except.bind] using h⟩

/-- A successful required field lookup means the field was present. -/
theorem requireField_some {α : Type} {field : String} {o : Option α} {a : α}
    (h : requireField field o = .ok a) : o = some a := by
  cases o <;> simp_all [requireField]

/-- A successful name validation returns the stripped input, which is
nonempty. -/
theorem parseName_ok {field : String} {maxLen : Nat} {emptyMsg s n : String}
    (h : parseName field maxLen emptyMsg s = .ok n) :
    n = pyStrip s ∧ n ≠ "" := by
  unfold parseName at h
  split_ifs at h with h1 h2 h3
  have hn := Except.ok.inj h
  exact ⟨hn.symm, hn ▸ h3⟩

/-- C10. Every Artist, Track and Album accepted by validation stores the
whitespace stripped form of the supplied name, and that stored name is
nonempty: no accepted entity carries leading or trailing whitespace in
its name. -/
theorem C10_entity_names_trimmed :
    (∀ (raw : RawArtist) (a : Artist), parseArtist raw = .ok a →
      ∃ s, raw.name = some s ∧ a.name = pyStrip s ∧ a.name ≠ "") ∧
    (∀ (raw : RawTrack) (t : Track), parseTrack raw = .ok t →
      ∃ s, raw.name = some s ∧ t.name = pyStrip s ∧ t.name ≠ "") ∧
    (∀ (raw : RawAlbum) (al : Album), parseAlbum raw = .ok al →
      ∃ s, raw.name = some s ∧ al.name = pyStrip s ∧ al.name ≠ "") := by
  refine ⟨?_, ?_, ?_⟩
  · intro raw a h
    unfold parseArtist at h
    obtain ⟨idv, hid, h⟩ := bind_ok_inv h
    obtain ⟨nameRaw, hname, h⟩ := bind_ok_inv h
    obtain ⟨nm, hnm, h⟩ := bind_ok_inv h
    obtain ⟨gs, hgs, h⟩ := bind_ok_inv h
    obtain ⟨fol, hfol, h⟩ := bind_ok_inv h
    obtain ⟨cty, hcty, h⟩ := bind_ok_inv h
    have ha := Except.ok.inj h
    obtain ⟨hn1, hn2⟩ := parseName_ok hnm
    exact ⟨nameRaw, requireField_some hname, by rw [← ha]; exact hn1,
      by rw [← ha]; exact hn2⟩
  · intro raw t h
    unfold parseTrack at h
    obtain ⟨idv, hid, h⟩ := bind_ok_inv h
    obtain ⟨nameRaw, hname, h⟩ := bind_ok_inv h
    obtain ⟨nm, hnm, h⟩ := bind_ok_inv h
    obtain ⟨aid, haid, h⟩ := bind_ok_inv h
    obtain ⟨dur, hdur, h⟩ := bind_ok_inv h
    obtain ⟨pop1, hpop1, h⟩ := bind_ok_inv h
    obtain ⟨pop2, hpop2, h⟩ := bind_ok_inv h
    obtain ⟨en, hen, h⟩ := bind_ok_inv h
    obtain ⟨va, hva, h⟩ := bind_ok_inv h
    obtain ⟨te, hte, h⟩ := bind_ok_inv h
    obtain ⟨gs, hgs, h⟩ := bind_ok_inv h
    have ha := Except.ok.inj h
    obtain ⟨hn1, hn2⟩ := parseName_ok hnm
    exact ⟨nameRaw, requireField_some hname, by rw [← ha]; exact hn1,
      by rw [← ha]; exact hn2⟩
  · intro raw al h
    unfold parseAlbum at h
    obtain ⟨idv, hid, h⟩ := bind_ok_inv h
    obtain ⟨nameRaw, hname, h⟩ := bind_ok_inv h
    obtain ⟨nm, hnm, h⟩ := bind_ok_inv h
    obtain ⟨aid, haid, h⟩ := bind_ok_inv h
    obtain ⟨tc, htc, h⟩ := bind_ok_inv h
    obtain ⟨gs, hgs, h⟩ := bind_ok_inv h
    have ha := Except.ok.inj h
    obtain ⟨hn1, hn2⟩ := parseName_ok hnm
    exact ⟨nameRaw, requireField_some hname, by rw [← ha]; exact hn1,
      by rw [← ha]; exact hn2⟩

/-- Raw sample album payload with whitespace around the name. -/
def rawAlbum0 : RawAlbum :=
  ⟨some "album-001", some "  Test Album  ", some "artist-001", none, some 12, some ["pop"]⟩

/-- Validated sample album, name stripped. -/
def album0 : Album := ⟨"album-001", "Test Album", "artist-001", none, some 12, [.pop]⟩

/-- C10 witness: the trimming invariant evaluated on a concrete artist,
track and album, the album name carrying surrounding whitespace. -/
theorem C10_entity_names_trimmed_witness :
    (∃ s, rawArtist0.name = some s ∧ artist0.name = pyStrip s ∧ artist0.name ≠ "") ∧
    (∃ s, rawTrack0.name = some s ∧ track0.name = pyStrip s ∧ track0.name ≠ "") ∧
    (∃ s, rawAlbum0.name = some s ∧ album0.name = pyStrip s ∧ album0.name ≠ "") :=
  ⟨C10_entity_names_trimmed.1 rawArtist0 artist0 (by decide),
   C10_entity_names_trimmed.2.1 rawTrack0 track0 (by decide),
   C10_entity_names_trimmed.2.2 rawAlbum0 album0 (by decide)⟩
